import Mathlib

/-!
# Verification of `dea_bandindices.py` (`calculate_indices`)

Shallow embedding of `src/DEA_sandbox/Case_Studies/utils/dea_bandindices.py`.

Modelling choices:
* A dataset is an association list of named bands.  Every xarray operation
  used by the source (band arithmetic, scalar broadcast, `rename`, `/ 1000.0`,
  item assignment) acts elementwise/pointwise, so a band is modelled by a
  single representative element, a rational number; theorems quantify over
  arbitrary band values, which covers every element of an array.
* Python float arithmetic is modelled by exact rational arithmetic (`ℚ`);
  where division matters, nonzero-denominator hypotheses keep the Lean
  convention `q / 0 = 0` out of play.
* Attribute access `ds.nir` either yields the band or raises
  `AttributeError`, modelled as `Except Unit`.
* `raise ValueError(...)` at the five distinct raise sites is modelled by the
  five constructors of `CIError`; the message of the missing-band re-raise is
  kept (it interpolates the index name), with the apostrophes of the Python
  message omitted.
* The source mutates the caller's dataset only at `ds[output_band_name] = ...`
  and then returns the same object.  `calculate_indices` therefore returns a
  pair: the function result (value returned or exception raised) and the
  state of the caller's dataset after the call; each `raise` site occurs in
  the source before the assignment, with the dataset untouched, so it is
  embedded as `(Except.error e, ds)`.
-/

/-- One band, modelled pointwise (a representative element of the array). -/
abbrev Band := ℚ

/-- An xarray `Dataset`: an ordered association list of named bands. -/
structure DS where
  vars : List (String × Band)
deriving DecidableEq

/-- First-match lookup in an association list keyed by strings
(Python `dict` lookup; the dict literals below have distinct keys). -/
def lookupKey {α : Type} : List (String × α) → String → Option α
  | [], _ => none
  | (k, v) :: rest, n => if k = n then some v else lookupKey rest n

/-- Band lookup by name. -/
def DS.getVar (ds : DS) (n : String) : Option Band := lookupKey ds.vars n

/-- Membership test `n in ds.variables`. -/
def DS.hasVar (ds : DS) (n : String) : Bool := (ds.getVar n).isSome

/-- The band names of the dataset, in order. -/
def DS.varNames (ds : DS) : List String := ds.vars.map Prod.fst

/-- How `ds.rename mapping` relabels one name: substituted when the name is a
key of the mapping, kept otherwise. -/
def applyRen (m : List (String × String)) (n : String) : String :=
  match lookupKey m n with
  | some b => b
  | none => n

/-- Renaming `ds.rename(mapping)`: a new dataset view with band names substituted. -/
def DS.rename (ds : DS) (m : List (String × String)) : DS :=
  ⟨ds.vars.map (fun p => (applyRen m p.1, p.2))⟩

/-- Rescaling `ds / 1000.0`: every band of the dataset divided by 1000. -/
def DS.scale (ds : DS) : DS := ⟨ds.vars.map (fun p => (p.1, p.2 / 1000))⟩

/-- Attribute-style band access `ds.name`: the band, or `AttributeError`. -/
def DS.attr (ds : DS) (n : String) : Except Unit Band :=
  match ds.getVar n with
  | some v => Except.ok v
  | none => Except.error ()

/-- Assignment `ds[n] = v`: overwrite the band named `n` when present, append otherwise. -/
def DS.setVar (ds : DS) (n : String) (v : Band) : DS :=
  if ds.hasVar n then ⟨ds.vars.map (fun p => if p.1 = n then (n, v) else p)⟩
  else ⟨ds.vars ++ [(n, v)]⟩

/-- The index registry `index_dict` of the source: each formula reads the
canonical bands its Python lambda reads and combines them exactly as written
there (`AWEI_ns` keeps the literal `2.5 * ds.nir * + 2.75 * ds.swir2`). -/
def index_dict : List (String × (DS → Except Unit Band)) :=
  [ ("NDVI", fun ds => do
      let nir ← ds.attr "nir"
      let red ← ds.attr "red"
      pure ((nir - red) / (nir + red))),
    ("EVI", fun ds => do
      let nir ← ds.attr "nir"
      let red ← ds.attr "red"
      let blue ← ds.attr "blue"
      pure ((2.5 * (nir - red)) / (nir + 6 * red - 7.5 * blue + 1))),
    ("LAI", fun ds => do
      let nir ← ds.attr "nir"
      let red ← ds.attr "red"
      let blue ← ds.attr "blue"
      pure (3.618 * ((2.5 * (nir - red)) /
        (nir + 6 * red - 7.5 * blue + 1)) - 0.118)),
    ("SAVI", fun ds => do
      let nir ← ds.attr "nir"
      let red ← ds.attr "red"
      pure ((1.5 * (nir - red)) / (nir + red + 0.5))),
    ("NDMI", fun ds => do
      let nir ← ds.attr "nir"
      let swir1 ← ds.attr "swir1"
      pure ((nir - swir1) / (nir + swir1))),
    ("NBR", fun ds => do
      let nir ← ds.attr "nir"
      let swir2 ← ds.attr "swir2"
      pure ((nir - swir2) / (nir + swir2))),
    ("BAI", fun ds => do
      let red ← ds.attr "red"
      let nir ← ds.attr "nir"
      pure (1.0 / ((0.10 - red) ^ 2 + (0.06 - nir) ^ 2))),
    ("NDBI", fun ds => do
      let swir1 ← ds.attr "swir1"
      let nir ← ds.attr "nir"
      pure ((swir1 - nir) / (swir1 + nir))),
    ("NDSI", fun ds => do
      let green ← ds.attr "green"
      let swir1 ← ds.attr "swir1"
      pure ((green - swir1) / (green + swir1))),
    ("NDWI", fun ds => do
      let green ← ds.attr "green"
      let nir ← ds.attr "nir"
      pure ((green - nir) / (green + nir))),
    ("MNDWI", fun ds => do
      let green ← ds.attr "green"
      let swir1 ← ds.attr "swir1"
      pure ((green - swir1) / (green + swir1))),
    ("AWEI_ns", fun ds => do
      let green ← ds.attr "green"
      let swir1 ← ds.attr "swir1"
      let nir ← ds.attr "nir"
      let swir2 ← ds.attr "swir2"
      pure (4 * (green - swir1) - (2.5 * nir * 2.75 * swir2))),
    ("AWEI_sh", fun ds => do
      let blue ← ds.attr "blue"
      let green ← ds.attr "green"
      let nir ← ds.attr "nir"
      let swir1 ← ds.attr "swir1"
      let swir2 ← ds.attr "swir2"
      pure (blue + 2.5 * green - 1.5 * (nir + swir1) - 2.5 * swir2)),
    ("WI", fun ds => do
      let green ← ds.attr "green"
      let red ← ds.attr "red"
      let nir ← ds.attr "nir"
      let swir1 ← ds.attr "swir1"
      let swir2 ← ds.attr "swir2"
      pure (1.7204 + 171 * green + 3 * red - 70 * nir -
        45 * swir1 - 71 * swir2)),
    ("TCW", fun ds => do
      let blue ← ds.attr "blue"
      let green ← ds.attr "green"
      let red ← ds.attr "red"
      let nir ← ds.attr "nir"
      let swir1 ← ds.attr "swir1"
      let swir2 ← ds.attr "swir2"
      pure (0.0315 * blue + 0.2021 * green + 0.3102 * red + 0.1594 * nir +
        -0.6806 * swir1 + -0.6109 * swir2)),
    ("TCG", fun ds => do
      let blue ← ds.attr "blue"
      let green ← ds.attr "green"
      let red ← ds.attr "red"
      let nir ← ds.attr "nir"
      let swir1 ← ds.attr "swir1"
      let swir2 ← ds.attr "swir2"
      pure (-0.1603 * blue + -0.2819 * green + -0.4934 * red + 0.7940 * nir +
        -0.0002 * swir1 + -0.1446 * swir2)),
    ("TCB", fun ds => do
      let blue ← ds.attr "blue"
      let green ← ds.attr "green"
      let red ← ds.attr "red"
      let nir ← ds.attr "nir"
      let swir1 ← ds.attr "swir1"
      let swir2 ← ds.attr "swir2"
      pure (0.2043 * blue + 0.4158 * green + 0.5524 * red + 0.5741 * nir +
        0.3124 * swir1 + -0.2303 * swir2)),
    ("CMR", fun ds => do
      let swir1 ← ds.attr "swir1"
      let swir2 ← ds.attr "swir2"
      pure (swir1 / swir2)),
    ("FMR", fun ds => do
      let swir1 ← ds.attr "swir1"
      let nir ← ds.attr "nir"
      pure (swir1 / nir)),
    ("IOR", fun ds => do
      let red ← ds.attr "red"
      let blue ← ds.attr "blue"
      pure (red / blue)) ]

/-- The registered index codes, in registry order. -/
def registeredIndices : List String := index_dict.map Prod.fst

/-- The five distinct `raise ValueError` sites of `calculate_indices`. -/
inductive CIError where
  | missingIndex : CIError
  | unknownIndex (index : String) : CIError
  | missingCollection : CIError
  | unknownCollection (collection : String) : CIError
  | missingBand (msg : String) : CIError
deriving DecidableEq

/-- The message of the missing-band re-raise (apostrophes of the Python
literal omitted); the requested index name is interpolated into it. -/
def missingBandMsg (index : String) : String :=
  "Please verify that all bands required to compute " ++ index ++
  " are present in `ds`. \nThese bands may vary depending on the " ++
  "`collection` (e.g. the Landsat `nbart_nir` band \nis equivelent to " ++
  "`nbart_nir_1` for Sentinel 2)"

/-- The `ga_landsat_3` native-to-canonical band name dictionary, in source
order. -/
def bandnames_dict_ls3 : List (String × String) :=
  [("nbart_nir", "nir"), ("nbart_red", "red"), ("nbart_green", "green"),
   ("nbart_blue", "blue"), ("nbart_swir_1", "swir1"), ("nbart_swir_2", "swir2"),
   ("nbar_red", "red"), ("nbar_green", "green"), ("nbar_blue", "blue"),
   ("nbar_nir", "nir"), ("nbar_swir_1", "swir1"), ("nbar_swir_2", "swir2")]

/-- The `ga_sentinel2_1` native-to-canonical band name dictionary, in source
order. -/
def bandnames_dict_s2 : List (String × String) :=
  [("nbart_red", "red"), ("nbart_green", "green"), ("nbart_blue", "blue"),
   ("nbart_nir_1", "nir"), ("nbart_swir_2", "swir1"), ("nbart_swir_3", "swir2"),
   ("nbar_red", "red"), ("nbar_green", "green"), ("nbar_blue", "blue"),
   ("nbar_nir", "nir"), ("nbar_swir_2", "swir1"), ("nbar_swir_3", "swir2")]

/-- Filtering `bands_to_rename`: the dictionary filtered to keys present in the
dataset. -/
def filterPresent (m : List (String × String)) (ds : DS) :
    List (String × String) :=
  m.filter (fun p => ds.hasVar p.1)

/-- The `if/elif` chain over `collection`: `some` of the filtered rename map
for a registered collection, `none` for the final `else` raise branch. -/
def renameMapFor (collection : String) (ds : DS) :
    Option (List (String × String)) :=
  if collection = "ga_landsat_3" then some (filterPresent bandnames_dict_ls3 ds)
  else if collection = "ga_sentinel2_1" then
    some (filterPresent bandnames_dict_s2 ds)
  else if collection = "ga_landsat_2" then some []
  else none

/-- Output name `custom_varname if custom_varname else index` (Python truthiness: an
absent or empty `custom_varname` falls back to `index`). -/
def output_band_name (custom_varname : Option String) (index : String) :
    String :=
  match custom_varname with
  | some v => if v = "" then index else v
  | none => index

/-- The function `calculate_indices`.  First component: the value returned or the
exception raised; second component: the state of the caller's dataset after
the call (mutated only by the `ds[output_band_name] = index_array`
assignment, which the source performs after every raise site). -/
def calculate_indices (ds : DS)
    (index collection custom_varname : Option String) :
    Except CIError DS × DS :=
  match index with
  | none => (Except.error CIError.missingIndex, ds)
  | some idxName =>
    match lookupKey index_dict idxName with
    | none => (Except.error (CIError.unknownIndex idxName), ds)
    | some index_func =>
      match collection with
      | none => (Except.error CIError.missingCollection, ds)
      | some coll =>
        match renameMapFor coll ds with
        | none => (Except.error (CIError.unknownCollection coll), ds)
        | some bands_to_rename =>
          match index_func ((ds.rename bands_to_rename).scale) with
          | Except.error _ =>
              (Except.error (CIError.missingBand (missingBandMsg idxName)), ds)
          | Except.ok index_array =>
            let ds2 := ds.setVar (output_band_name custom_varname idxName)
              index_array
            (Except.ok ds2, ds2)

/-- The computed index array attached by a call (`none` when the call
raised). -/
def outputArray (r : Except CIError DS × DS) (n : String) : Option Band :=
  match r.1 with
  | Except.ok d => d.getVar n
  | Except.error _ => none

/-- A dataset holding exactly the six canonical bands. -/
def canonDS (r g b n s1 s2 : Band) : DS :=
  ⟨[("red", r), ("green", g), ("blue", b), ("nir", n),
    ("swir1", s1), ("swir2", s2)]⟩

/-- A dataset holding exactly the six `ga_landsat_3` `nbart_*` bands. -/
def nbartDS (r g b n s1 s2 : Band) : DS :=
  ⟨[("nbart_red", r), ("nbart_green", g), ("nbart_blue", b), ("nbart_nir", n),
    ("nbart_swir_1", s1), ("nbart_swir_2", s2)]⟩

/-- A dataset holding exactly the six `ga_landsat_3` `nbar_*` bands. -/
def nbarDS (r g b n s1 s2 : Band) : DS :=
  ⟨[("nbar_red", r), ("nbar_green", g), ("nbar_blue", b), ("nbar_nir", n),
    ("nbar_swir_1", s1), ("nbar_swir_2", s2)]⟩

/-- The dataset produced by one `NDVI` run on `canonDS 1 2 3 4 5 6`
(used as a concrete witness). -/
def frameDS : DS :=
  (calculate_indices (canonDS 1 2 3 4 5 6) (some "NDVI")
    (some "ga_landsat_2") none).2

/-- The dataset after a first `NDVI` run on `canonDS 1 2 3 4 5 6`. -/
def owDS1 : DS :=
  (calculate_indices (canonDS 1 2 3 4 5 6) (some "NDVI")
    (some "ga_landsat_2") none).2

/-- The dataset after a second `NDVI` run on `owDS1`. -/
def owDS2 : DS :=
  (calculate_indices owDS1 (some "NDVI") (some "ga_landsat_2") none).2

/-! ## Helper lemmas about the dataset operations -/

theorem lookupKey_cons (k : String) (w : Band) (rest : List (String × Band))
    (n : String) :
    lookupKey ((k, w) :: rest) n =
      if k = n then some w else lookupKey rest n := rfl

theorem lookupKey_map_overwrite (l : List (String × Band)) (n : String)
    (v : Band) :
    lookupKey (l.map (fun p => if p.1 = n then (n, v) else p)) n =
      (lookupKey l n).map (fun _ => v) := by
  induction l with
  | nil => rfl
  | cons p rest ih =>
    obtain ⟨k, w⟩ := p
    rw [List.map_cons]
    by_cases h : k = n
    · rw [if_pos (show (k, w).1 = n from h), lookupKey_cons, lookupKey_cons,
        if_pos rfl, if_pos h]
      rfl
    · rw [if_neg (show ¬(k, w).1 = n from h), lookupKey_cons, lookupKey_cons,
        if_neg h, if_neg h, ih]

theorem lookupKey_map_overwrite_ne (l : List (String × Band)) (n m : String)
    (v : Band) (h : m ≠ n) :
    lookupKey (l.map (fun p => if p.1 = n then (n, v) else p)) m =
      lookupKey l m := by
  induction l with
  | nil => rfl
  | cons p rest ih =>
    obtain ⟨k, w⟩ := p
    rw [List.map_cons]
    by_cases hk : k = n
    · have hnm : ¬n = m := fun hh => h hh.symm
      have hkm : ¬k = m := fun hh => hnm (hk ▸ hh)
      rw [if_pos (show (k, w).1 = n from hk), lookupKey_cons, lookupKey_cons,
        if_neg hnm, if_neg hkm, ih]
    · rw [if_neg (show ¬(k, w).1 = n from hk), lookupKey_cons, lookupKey_cons]
      by_cases hm : k = m
      · rw [if_pos hm, if_pos hm]
      · rw [if_neg hm, if_neg hm, ih]

theorem lookupKey_append (l1 l2 : List (String × Band)) (n : String) :
    lookupKey (l1 ++ l2) n =
      match lookupKey l1 n with
      | some v => some v
      | none => lookupKey l2 n := by
  induction l1 with
  | nil => rfl
  | cons p rest ih =>
    obtain ⟨k, w⟩ := p
    rw [List.cons_append, lookupKey_cons, lookupKey_cons]
    by_cases h : k = n
    · rw [if_pos h, if_pos h]
    · rw [if_neg h, if_neg h, ih]

/-- The band written by `ds[n] = v` reads back as `v`. -/
theorem getVar_setVar_self (ds : DS) (n : String) (v : Band) :
    (ds.setVar n v).getVar n = some v := by
  obtain ⟨l⟩ := ds
  cases hl : lookupKey l n with
  | some w =>
    have hv : DS.hasVar ⟨l⟩ n = true := by
      simp [DS.hasVar, DS.getVar, hl]
    show (DS.setVar ⟨l⟩ n v).getVar n = some v
    rw [DS.setVar, if_pos hv]
    show lookupKey (l.map fun p => if p.1 = n then (n, v) else p) n = some v
    rw [lookupKey_map_overwrite, hl]
    rfl
  | none =>
    have hv : ¬DS.hasVar ⟨l⟩ n = true := by
      simp [DS.hasVar, DS.getVar, hl]
    show (DS.setVar ⟨l⟩ n v).getVar n = some v
    rw [DS.setVar, if_neg hv]
    show lookupKey (l ++ [(n, v)]) n = some v
    rw [lookupKey_append, hl, lookupKey_cons, if_pos rfl]

/-- Assignment `ds[n] = v` leaves every other band unchanged. -/
theorem getVar_setVar_ne (ds : DS) (n m : String) (v : Band) (h : m ≠ n) :
    (ds.setVar n v).getVar m = ds.getVar m := by
  obtain ⟨l⟩ := ds
  by_cases hv : DS.hasVar ⟨l⟩ n = true
  · show (DS.setVar ⟨l⟩ n v).getVar m = DS.getVar ⟨l⟩ m
    rw [DS.setVar, if_pos hv]
    exact lookupKey_map_overwrite_ne l n m v h
  · show (DS.setVar ⟨l⟩ n v).getVar m = DS.getVar ⟨l⟩ m
    rw [DS.setVar, if_neg hv]
    show lookupKey (l ++ [(n, v)]) m = lookupKey l m
    rw [lookupKey_append]
    cases hm : lookupKey l m with
    | some w => rfl
    | none =>
      rw [lookupKey_cons, if_neg (fun hh : n = m => h hh.symm)]
      rfl

/-- After `ds[n] = v` the band `n` is present. -/
theorem hasVar_setVar_self (ds : DS) (n : String) (v : Band) :
    (ds.setVar n v).hasVar n = true := by
  simp [DS.hasVar, getVar_setVar_self]

/-- Assignment `ds[n] = v` keeps the name list when `n` was present, appends `n`
otherwise. -/
theorem varNames_setVar (ds : DS) (n : String) (v : Band) :
    (ds.setVar n v).varNames =
      if ds.hasVar n then ds.varNames else ds.varNames ++ [n] := by
  obtain ⟨l⟩ := ds
  by_cases h : DS.hasVar ⟨l⟩ n = true
  · rw [if_pos h, DS.setVar, if_pos h]
    show List.map Prod.fst (l.map fun p => if p.1 = n then (n, v) else p) =
      List.map Prod.fst l
    rw [List.map_map]
    apply List.map_congr_left
    intro p _
    by_cases hp : p.1 = n <;> simp [hp, Function.comp]
  · rw [if_neg h, DS.setVar, if_neg h]
    show List.map Prod.fst (l ++ [(n, v)]) = List.map Prod.fst l ++ [n]
    simp

/-- The ÷1000 rescaling is applied uniformly: reading any band of `ds / 1000`
gives the original value divided by 1000. -/
theorem getVar_scale (ds : DS) (n : String) :
    (DS.scale ds).getVar n = (ds.getVar n).map (fun q => q / 1000) := by
  obtain ⟨l⟩ := ds
  show lookupKey (l.map fun p => (p.1, p.2 / 1000)) n =
    (lookupKey l n).map (fun q => q / 1000)
  induction l with
  | nil => rfl
  | cons p rest ih =>
    obtain ⟨k, w⟩ := p
    rw [List.map_cons]
    show lookupKey ((k, w / 1000) :: _) n = _
    rw [lookupKey_cons, lookupKey_cons]
    by_cases h : k = n
    · rw [if_pos h, if_pos h]
      rfl
    · rw [if_neg h, if_neg h, ih]

/-! ## Claims -/

/-- Unfolding lemma: a call with a registered index reduces to the
collection dispatch, the formula evaluation and the attach step. -/
theorem calculate_indices_some (ds : DS) (idx : String)
    (f : DS → Except Unit Band) (coll : String) (cv : Option String)
    (hf : lookupKey index_dict idx = some f) :
    calculate_indices ds (some idx) (some coll) cv =
      match renameMapFor coll ds with
      | none => (Except.error (CIError.unknownCollection coll), ds)
      | some m =>
        match f ((ds.rename m).scale) with
        | Except.error _ =>
            (Except.error (CIError.missingBand (missingBandMsg idx)), ds)
        | Except.ok arr =>
          (Except.ok (ds.setVar (output_band_name cv idx) arr),
            ds.setVar (output_band_name cv idx) arr) := by
  show (match lookupKey index_dict idx with
    | none => (Except.error (CIError.unknownIndex idx), ds)
    | some index_func =>
      match renameMapFor coll ds with
      | none => (Except.error (CIError.unknownCollection coll), ds)
      | some bands_to_rename =>
        match index_func ((ds.rename bands_to_rename).scale) with
        | Except.error _ =>
            (Except.error (CIError.missingBand (missingBandMsg idx)), ds)
        | Except.ok index_array =>
          (Except.ok (ds.setVar (output_band_name cv idx) index_array),
            ds.setVar (output_band_name cv idx) index_array)) = _
  rw [hf]

/-- Unfolding lemma: with a registered index and a known rename map the call
reduces to the formula evaluation and the attach step. -/
theorem calculate_indices_some_map (ds : DS) (idx : String)
    (f : DS → Except Unit Band) (coll : String) (cv : Option String)
    (m : List (String × String))
    (hf : lookupKey index_dict idx = some f)
    (hm : renameMapFor coll ds = some m) :
    calculate_indices ds (some idx) (some coll) cv =
      match f ((ds.rename m).scale) with
      | Except.error _ =>
          (Except.error (CIError.missingBand (missingBandMsg idx)), ds)
      | Except.ok arr =>
        (Except.ok (ds.setVar (output_band_name cv idx) arr),
          ds.setVar (output_band_name cv idx) arr) := by
  rw [calculate_indices_some ds idx f coll cv hf, hm]

/-- Renaming with the empty map is the identity (`ga_landsat_2` branch). -/
theorem rename_nil (ds : DS) : ds.rename [] = ds := by
  obtain ⟨l⟩ := ds
  show DS.mk (l.map fun p => (applyRen [] p.1, p.2)) = DS.mk l
  have : (fun p : String × Band => (applyRen [] p.1, p.2)) = id := by
    funext p
    rfl
  rw [this, List.map_id]

/-- C1: with `index = NDVI`, `collection = ga_landsat_2` and any dataset
whose bands carry the canonical names (here: containing `nir` and `red`,
the bands `NDVI` reads), `calculate_indices` returns the dataset with an
`NDVI` band equal to `(nir - red) / (nir + red)` evaluated on the band
values after each band has been divided by 1000; the last conjunct states
that the ÷1000 rescaling is applied uniformly to every band of a dataset
before formula evaluation. -/
theorem ndvi_ga_landsat_2_correct (ds : DS) (n r : Band)
    (hn : ds.getVar "nir" = some n) (hr : ds.getVar "red" = some r) :
    (calculate_indices ds (some "NDVI") (some "ga_landsat_2") none).1 =
      Except.ok (ds.setVar "NDVI"
        ((n / 1000 - r / 1000) / (n / 1000 + r / 1000))) ∧
    (ds.setVar "NDVI" ((n / 1000 - r / 1000) / (n / 1000 + r / 1000))).getVar
        "NDVI" = some ((n / 1000 - r / 1000) / (n / 1000 + r / 1000)) ∧
    ∀ (d : DS) (name : String),
      (DS.scale d).getVar name =
        (d.getVar name).map (fun q => q / 1000) := by
  refine ⟨?_, getVar_setVar_self ds "NDVI" _, getVar_scale⟩
  rw [calculate_indices_some_map ds "NDVI"
      (fun ds => do
        let nir ← ds.attr "nir"
        let red ← ds.attr "red"
        pure ((nir - red) / (nir + red))) "ga_landsat_2" none [] rfl rfl,
    rename_nil]
  have hok : (do
      let nir ← (DS.scale ds).attr "nir"
      let red ← (DS.scale ds).attr "red"
      pure ((nir - red) / (nir + red)) : Except Unit Band) =
      Except.ok ((n / 1000 - r / 1000) / (n / 1000 + r / 1000)) := by
    simp [DS.attr, getVar_scale, hn, hr, Bind.bind, Except.bind, pure,
      Except.pure]
  rw [hok]
  rfl

theorem ndvi_ga_landsat_2_correct_witness :
    (canonDS 1 2 3 4 5 6).getVar "nir" = some 4 ∧
    (canonDS 1 2 3 4 5 6).getVar "red" = some 1 ∧
    (calculate_indices (canonDS 1 2 3 4 5 6) (some "NDVI")
        (some "ga_landsat_2") none).1 =
      Except.ok ((canonDS 1 2 3 4 5 6).setVar "NDVI"
        (((4 : ℚ) / 1000 - 1 / 1000) / ((4 : ℚ) / 1000 + 1 / 1000))) :=
  ⟨rfl, rfl, (ndvi_ga_landsat_2_correct (canonDS 1 2 3 4 5 6) 4 1
    rfl rfl).1⟩

/-- C2: the `AWEI_ns` registry entry computes, on the rescaled canonical
bands, the literal source expression
`4*(green - swir1) - (2.5*nir * 2.75*swir2)`, which equals
`4*(green - swir1) - 6.875*nir*swir2`, and which is not the textbook sum
`4*(green - swir1) - (2.5*nir + 2.75*swir2)` (they differ, e.g. at
`nir = swir2 = 1`). -/
theorem awei_ns_literal (r g b n s1 s2 : Band) :
    outputArray (calculate_indices (canonDS r g b n s1 s2) (some "AWEI_ns")
        (some "ga_landsat_2") none) "AWEI_ns" =
      some (4 * (g / 1000 - s1 / 1000) -
        2.5 * (n / 1000) * 2.75 * (s2 / 1000)) ∧
    (4 * (g / 1000 - s1 / 1000) - 2.5 * (n / 1000) * 2.75 * (s2 / 1000) =
      4 * (g / 1000 - s1 / 1000) - 6.875 * (n / 1000) * (s2 / 1000)) ∧
    ¬ ∀ green swir1 nir swir2 : ℚ,
        4 * (green - swir1) - 2.5 * nir * 2.75 * swir2 =
          4 * (green - swir1) - (2.5 * nir + 2.75 * swir2) := by
  refine ⟨?_, by ring, ?_⟩
  · simp [outputArray, calculate_indices, renameMapFor, filterPresent,
      index_dict, lookupKey, DS.rename, DS.scale, DS.attr, DS.getVar,
      DS.hasVar, DS.setVar, canonDS, applyRen, output_band_name,
      Bind.bind, Except.bind, pure, Except.pure]
  · intro h
    have := h 0 0 1 1
    norm_num at this

/-- Every registered index formula succeeds on a dataset holding the six
canonical bands. -/
theorem registered_ok_on_six (s : String) (hs : s ∈ registeredIndices)
    (r g b n s1 s2 : Band) :
    ∃ f q, lookupKey index_dict s = some f ∧
      f (canonDS r g b n s1 s2) = Except.ok q := by
  simp only [registeredIndices, index_dict, List.map_cons, List.map_nil,
    List.mem_cons, List.not_mem_nil, or_false] at hs
  rcases hs with rfl | rfl | rfl | rfl | rfl | rfl | rfl | rfl | rfl | rfl |
    rfl | rfl | rfl | rfl | rfl | rfl | rfl | rfl | rfl | rfl <;>
    exact ⟨_, _, rfl, rfl⟩

/-- C4: an absent `index` raises the missing-index error and an unregistered
one the unknown-index error; with a registered index, an absent `collection`
raises the missing-collection error and an unregistered one the
unknown-collection error.  Index validation precedes collection validation
(the first conjunct holds for every `collection` argument), each failure
happens for every dataset and leaves it untouched (the returned state is
`ds` itself, before any renaming, rescaling or formula evaluation), and the
registry holds exactly twenty index codes. -/
theorem validation_errors_ordered (ds : DS) (cv : Option String) :
    (∀ collection, calculate_indices ds none collection cv =
        (Except.error CIError.missingIndex, ds)) ∧
    (∀ s collection, lookupKey index_dict s = none →
      calculate_indices ds (some s) collection cv =
        (Except.error (CIError.unknownIndex s), ds)) ∧
    (∀ s f, lookupKey index_dict s = some f →
      calculate_indices ds (some s) none cv =
        (Except.error CIError.missingCollection, ds)) ∧
    (∀ s f c, lookupKey index_dict s = some f →
      c ≠ "ga_landsat_2" → c ≠ "ga_landsat_3" → c ≠ "ga_sentinel2_1" →
      calculate_indices ds (some s) (some c) cv =
        (Except.error (CIError.unknownCollection c), ds)) ∧
    registeredIndices.length = 20 := by
  refine ⟨fun collection => rfl, ?_, ?_, ?_, rfl⟩
  · intro s collection h
    simp [calculate_indices, h]
  · intro s f h
    simp [calculate_indices, h]
  · intro s f c h h2 h3 h4
    simp [calculate_indices, h, renameMapFor, h2, h3, h4]

theorem validation_errors_ordered_witness :
    lookupKey index_dict "XYZ" = none ∧
    calculate_indices ⟨[]⟩ (some "XYZ") (some "ga_landsat_2") none =
      (Except.error (CIError.unknownIndex "XYZ"), (⟨[]⟩ : DS)) ∧
    calculate_indices ⟨[]⟩ (some "NDVI") (some "bogus") none =
      (Except.error (CIError.unknownCollection "bogus"), (⟨[]⟩ : DS)) := by
  refine ⟨rfl, (validation_errors_ordered ⟨[]⟩ none).2.1 "XYZ"
    (some "ga_landsat_2") rfl, ?_⟩
  exact (validation_errors_ordered ⟨[]⟩ none).2.2.2.1 "NDVI" _ "bogus" rfl
    (by decide) (by decide) (by decide)

/-- C10: whenever `calculate_indices` raises (any of its five errors), the
caller's dataset is left unchanged: the post-call state equals the input
dataset, since the output-band assignment comes after every raise site. -/
theorem error_leaves_dataset_unchanged (ds : DS)
    (index collection custom_varname : Option String) (e : CIError)
    (h : (calculate_indices ds index collection custom_varname).1 =
      Except.error e) :
    (calculate_indices ds index collection custom_varname).2 = ds := by
  unfold calculate_indices
  cases index with
  | none => rfl
  | some idxName =>
    cases hL : lookupKey index_dict idxName with
    | none => simp [hL]
    | some f =>
      cases collection with
      | none => simp [hL]
      | some coll =>
        cases hR : renameMapFor coll ds with
        | none => simp [hL, hR]
        | some m =>
          cases hF : f ((ds.rename m).scale) with
          | error u => simp [hL, hR, hF]
          | ok arr =>
            unfold calculate_indices at h
            simp [hL, hR, hF] at h

theorem error_leaves_dataset_unchanged_witness :
    (calculate_indices ⟨[]⟩ none none none).1 =
      Except.error CIError.missingIndex ∧
    (calculate_indices ⟨[]⟩ none none none).2 = (⟨[]⟩ : DS) :=
  ⟨rfl, error_leaves_dataset_unchanged ⟨[]⟩ none none none
    CIError.missingIndex rfl⟩

set_option maxRecDepth 16384 in
/-- C5 counterexample: on an empty dataset the missing-band error raised for
index `NDVI` carries the same value whether the requested collection is
`ga_landsat_2` or `ga_landsat_3`, and the requested collection identifier
does not occur in the message — so the error does not name the requested
collection. -/
theorem missing_band_error_counterexample :
    (calculate_indices ⟨[]⟩ (some "NDVI") (some "ga_landsat_3") none).1 =
      Except.error (CIError.missingBand (missingBandMsg "NDVI")) ∧
    (calculate_indices ⟨[]⟩ (some "NDVI") (some "ga_landsat_2") none).1 =
      (calculate_indices ⟨[]⟩ (some "NDVI") (some "ga_landsat_3") none).1 ∧
    ¬ "ga_landsat_3".data <:+: (missingBandMsg "NDVI").data := by
  exact ⟨rfl, rfl, by decide⟩


/-- C5 (amended): with a registered index and a registered collection, a
formula whose band lookup fails is not rejected during validation but only
at formula-evaluation time, where the attribute failure is re-raised as the
single missing-band error; its message names the requested index and notes
that band requirements vary with the `collection` parameter (it does not
contain the requested collection identifier itself). -/
theorem missing_band_error_lazy (ds : DS) (idx : String)
    (f : DS → Except Unit Band) (coll : String)
    (m : List (String × String)) (cv : Option String)
    (hf : lookupKey index_dict idx = some f)
    (hm : renameMapFor coll ds = some m)
    (he : f ((ds.rename m).scale) = Except.error ()) :
    calculate_indices ds (some idx) (some coll) cv =
      (Except.error (CIError.missingBand (missingBandMsg idx)), ds) ∧
    (∃ a b : String, missingBandMsg idx = a ++ idx ++ b) ∧
    (∃ a b : String, missingBandMsg idx = a ++ "`collection`" ++ b) := by
  refine ⟨by simp [calculate_indices, hf, hm, he], ?_, ?_⟩
  · refine ⟨"Please verify that all bands required to compute ",
      " are present in `ds`. \nThese bands may vary depending on the " ++
      "`collection` (e.g. the Landsat `nbart_nir` band \nis equivelent to " ++
      "`nbart_nir_1` for Sentinel 2)", ?_⟩
    simp [missingBandMsg, String.append_assoc]
  · refine ⟨"Please verify that all bands required to compute " ++ idx ++
      " are present in `ds`. \nThese bands may vary depending on the ",
      " (e.g. the Landsat `nbart_nir` band \nis equivelent to " ++
      "`nbart_nir_1` for Sentinel 2)", ?_⟩
    simp [missingBandMsg, String.append_assoc]

theorem missing_band_error_lazy_witness :
    lookupKey index_dict "NDVI" =
      some (fun ds => do
        let nir ← ds.attr "nir"
        let red ← ds.attr "red"
        pure ((nir - red) / (nir + red))) ∧
    renameMapFor "ga_landsat_2" ⟨[]⟩ = some [] ∧
    calculate_indices ⟨[]⟩ (some "NDVI") (some "ga_landsat_2") none =
      (Except.error (CIError.missingBand (missingBandMsg "NDVI")),
        (⟨[]⟩ : DS)) :=
  ⟨rfl, rfl,
    (missing_band_error_lazy ⟨[]⟩ "NDVI" _ "ga_landsat_2" [] none
      rfl rfl rfl).1⟩

/-- C9: the registry entries for `NDSI` and `MNDWI` are the same formula
`(green - swir1) / (green + swir1)`, hence for every dataset, collection
argument and `custom_varname` the two calls compute identical output
arrays. -/
theorem ndsi_mndwi_identical :
    lookupKey index_dict "NDSI" = lookupKey index_dict "MNDWI" ∧
    ∀ (ds : DS) (collection custom_varname : Option String),
      outputArray (calculate_indices ds (some "NDSI") collection
          custom_varname) (output_band_name custom_varname "NDSI") =
        outputArray (calculate_indices ds (some "MNDWI") collection
          custom_varname) (output_band_name custom_varname "MNDWI") := by
  refine ⟨rfl, ?_⟩
  intro ds collection custom_varname
  cases collection with
  | none => rfl
  | some coll =>
    obtain ⟨f, hf⟩ : ∃ f, lookupKey index_dict "NDSI" = some f := ⟨_, rfl⟩
    rw [calculate_indices_some ds "NDSI" f coll custom_varname hf,
      calculate_indices_some ds "MNDWI" f coll custom_varname
        (show lookupKey index_dict "MNDWI" = some f from hf)]
    cases hR : renameMapFor coll ds with
    | none => rfl
    | some m =>
      cases hF : f ((ds.rename m).scale) with
      | error u => simp [outputArray, hF]
      | ok arr => simp [outputArray, hF, getVar_setVar_self]

/-- Inversion: a successful call returns the input dataset with the computed
array attached under the output band name. -/
theorem ok_inversion (ds : DS) (idx : String)
    (collection custom_varname : Option String) (d : DS)
    (h : (calculate_indices ds (some idx) collection custom_varname).1 =
      Except.ok d) :
    ∃ arr, d = ds.setVar (output_band_name custom_varname idx) arr := by
  cases hL : lookupKey index_dict idx with
  | none => cases collection <;> simp [calculate_indices, hL] at h
  | some f =>
    cases collection with
    | none => simp [calculate_indices, hL] at h
    | some coll =>
      rw [calculate_indices_some ds idx f coll custom_varname hL] at h
      cases hR : renameMapFor coll ds with
      | none => simp [hR] at h
      | some m =>
        cases hF : f ((ds.rename m).scale) with
        | error u => simp [hR, hF] at h
        | ok arr =>
          simp only [hR, hF] at h
          exact ⟨arr, (Except.ok.injEq _ _ ▸ h).symm⟩

/-- C6: a successful call returns the original dataset with every original
band unchanged (same name, same unscaled value: renaming and rescaling only
touch the temporary view fed to the formula) plus exactly one new or
overwritten band named per `custom_varname` (or `index`). -/
theorem returned_dataset_frame (ds : DS) (idx : String)
    (collection custom_varname : Option String) (d : DS)
    (h : (calculate_indices ds (some idx) collection custom_varname).1 =
      Except.ok d) :
    (∀ m, m ≠ output_band_name custom_varname idx →
        d.getVar m = ds.getVar m) ∧
    (∃ q, d.getVar (output_band_name custom_varname idx) = some q) ∧
    (d.varNames = ds.varNames ∨
      d.varNames = ds.varNames ++ [output_band_name custom_varname idx]) := by
  obtain ⟨arr, rfl⟩ := ok_inversion ds idx collection custom_varname d h
  refine ⟨fun m hm => getVar_setVar_ne ds _ m arr hm,
    ⟨arr, getVar_setVar_self ds _ arr⟩, ?_⟩
  rw [varNames_setVar]
  by_cases hv : ds.hasVar (output_band_name custom_varname idx) = true
  · left
    rw [if_pos hv]
  · right
    rw [if_neg hv]

theorem returned_dataset_frame_witness :
    (calculate_indices (canonDS 1 2 3 4 5 6) (some "NDVI")
        (some "ga_landsat_2") none).1 = Except.ok frameDS ∧
    ((∀ m, m ≠ output_band_name none "NDVI" →
        frameDS.getVar m = (canonDS 1 2 3 4 5 6).getVar m) ∧
      (∃ q, frameDS.getVar (output_band_name none "NDVI") = some q) ∧
      (frameDS.varNames = (canonDS 1 2 3 4 5 6).varNames ∨
        frameDS.varNames = (canonDS 1 2 3 4 5 6).varNames ++
          [output_band_name none "NDVI"])) :=
  ⟨rfl, returned_dataset_frame (canonDS 1 2 3 4 5 6) "NDVI"
    (some "ga_landsat_2") none frameDS rfl⟩

/-- C8: after a first successful call attached the output band to `d1`, a
second successful call with the same arguments overwrites it: `d2` has the
same band names as `d1` (no duplicate, no error) and equals `d1` with the
output band replaced by the newly computed value. -/
theorem overwrite_on_recompute (ds : DS) (idx : String)
    (collection custom_varname : Option String) (d1 d2 : DS)
    (h1 : (calculate_indices ds (some idx) collection custom_varname).1 =
      Except.ok d1)
    (h2 : (calculate_indices d1 (some idx) collection custom_varname).1 =
      Except.ok d2) :
    d1.hasVar (output_band_name custom_varname idx) = true ∧
    d2.varNames = d1.varNames ∧
    ∃ q, d2 = d1.setVar (output_band_name custom_varname idx) q ∧
      d2.getVar (output_band_name custom_varname idx) = some q := by
  obtain ⟨a1, rfl⟩ := ok_inversion ds idx collection custom_varname d1 h1
  obtain ⟨a2, rfl⟩ := ok_inversion _ idx collection custom_varname _ h2
  refine ⟨hasVar_setVar_self ds _ a1, ?_, a2, rfl,
    getVar_setVar_self _ _ a2⟩
  rw [varNames_setVar, if_pos (hasVar_setVar_self ds _ a1)]

theorem overwrite_on_recompute_witness :
    (calculate_indices (canonDS 1 2 3 4 5 6) (some "NDVI")
        (some "ga_landsat_2") none).1 = Except.ok owDS1 ∧
    (calculate_indices owDS1 (some "NDVI") (some "ga_landsat_2") none).1 =
      Except.ok owDS2 ∧
    (owDS1.hasVar (output_band_name none "NDVI") = true ∧
      owDS2.varNames = owDS1.varNames ∧
      ∃ q, owDS2 = owDS1.setVar (output_band_name none "NDVI") q ∧
        owDS2.getVar (output_band_name none "NDVI") = some q) :=
  ⟨rfl, rfl, overwrite_on_recompute (canonDS 1 2 3 4 5 6) "NDVI"
    (some "ga_landsat_2") none owDS1 owDS2 rfl rfl⟩

/-- C3 counterexample: for index `EVI`, canonical values under
`ga_landsat_2` and the values times 1000 under the `ga_landsat_3` `nbart_*`
names give different outputs, because the ÷1000 rescaling is applied
unconditionally to both datasets, not only to the native-named one. -/
theorem rescaling_invariant_counterexample :
    outputArray (calculate_indices (canonDS 100 200 300 400 500 600)
        (some "EVI") (some "ga_landsat_2") none) "EVI" ≠
      outputArray (calculate_indices
        (nbartDS 100000 200000 300000 400000 500000 600000)
        (some "EVI") (some "ga_landsat_3") none) "EVI" := by
  simp [outputArray, calculate_indices, renameMapFor, filterPresent,
    bandnames_dict_ls3, index_dict, lookupKey, DS.rename, DS.scale, DS.attr,
    DS.getVar, DS.hasVar, DS.setVar, canonDS, nbartDS, applyRen,
    output_band_name, Bind.bind, Except.bind, pure, Except.pure]
  norm_num

/-- C3 (amended): for any index argument and custom name, a dataset holding
band values under the canonical names (`collection = ga_landsat_2`) and a
dataset holding the same values under the `ga_landsat_3` `nbart_*` native
names (`collection = ga_landsat_3`) produce identical output arrays — the
÷1000 rescaling is applied uniformly in both calls — and for every
registered index the calls succeed. -/
theorem uniform_rescaling_agreement (s : String) (cv : Option String)
    (r g b n s1 s2 : Band) :
    outputArray (calculate_indices (canonDS r g b n s1 s2) (some s)
        (some "ga_landsat_2") cv) (output_band_name cv s) =
      outputArray (calculate_indices (nbartDS r g b n s1 s2) (some s)
        (some "ga_landsat_3") cv) (output_band_name cv s) ∧
    (s ∈ registeredIndices →
      ∃ q, outputArray (calculate_indices (canonDS r g b n s1 s2) (some s)
        (some "ga_landsat_2") cv) (output_band_name cv s) = some q) := by
  have key : ((nbartDS r g b n s1 s2).rename
      (filterPresent bandnames_dict_ls3 (nbartDS r g b n s1 s2))).scale =
      ((canonDS r g b n s1 s2).rename []).scale := rfl
  constructor
  · cases hL : lookupKey index_dict s with
    | none => simp [calculate_indices, hL, outputArray]
    | some f =>
      rw [calculate_indices_some_map (canonDS r g b n s1 s2) s f
          "ga_landsat_2" cv [] hL rfl,
        calculate_indices_some_map (nbartDS r g b n s1 s2) s f
          "ga_landsat_3" cv
          (filterPresent bandnames_dict_ls3 (nbartDS r g b n s1 s2)) hL rfl,
        key]
      cases hF : f (((canonDS r g b n s1 s2).rename []).scale) with
      | error u => simp [outputArray, hF]
      | ok arr => simp [outputArray, hF, getVar_setVar_self]
  · intro hs
    obtain ⟨f, q, hf, hq⟩ := registered_ok_on_six s hs (r / 1000) (g / 1000)
      (b / 1000) (n / 1000) (s1 / 1000) (s2 / 1000)
    refine ⟨q, ?_⟩
    rw [calculate_indices_some_map (canonDS r g b n s1 s2) s f
        "ga_landsat_2" cv [] hf rfl,
      show ((canonDS r g b n s1 s2).rename []).scale =
        canonDS (r / 1000) (g / 1000) (b / 1000) (n / 1000) (s1 / 1000)
          (s2 / 1000) from rfl, hq]
    simp [outputArray, getVar_setVar_self]

theorem uniform_rescaling_agreement_witness :
    "NDVI" ∈ registeredIndices ∧
    ∃ q, outputArray (calculate_indices (canonDS 1 2 3 4 5 6) (some "NDVI")
      (some "ga_landsat_2") none) (output_band_name none "NDVI") = some q :=
  ⟨by decide,
    (uniform_rescaling_agreement "NDVI" none 1 2 3 4 5 6).2 (by decide)⟩

/-- C7: a `ga_landsat_3` dataset exposing only the `nbar_*` native names
(and no `nbart_*` ones) still succeeds for every registered index: the
rename map is filtered to exactly the native names present in the dataset
(here the six `nbar_*` entries), so the absent alias variants are never
applied. -/
theorem nbar_only_partial_alias (r g b n s1 s2 : Band) (s : String)
    (hs : s ∈ registeredIndices) :
    renameMapFor "ga_landsat_3" (nbarDS r g b n s1 s2) =
      some [("nbar_red", "red"), ("nbar_green", "green"),
        ("nbar_blue", "blue"), ("nbar_nir", "nir"),
        ("nbar_swir_1", "swir1"), ("nbar_swir_2", "swir2")] ∧
    (∀ p ∈ filterPresent bandnames_dict_ls3 (nbarDS r g b n s1 s2),
        (nbarDS r g b n s1 s2).hasVar p.1 = true) ∧
    ∃ d, (calculate_indices (nbarDS r g b n s1 s2) (some s)
        (some "ga_landsat_3") none).1 = Except.ok d := by
  refine ⟨rfl, fun p hp => (List.mem_filter.mp hp).2, ?_⟩
  simp only [registeredIndices, index_dict, List.map_cons, List.map_nil,
    List.mem_cons, List.not_mem_nil, or_false] at hs
  rcases hs with rfl | rfl | rfl | rfl | rfl | rfl | rfl | rfl | rfl | rfl |
    rfl | rfl | rfl | rfl | rfl | rfl | rfl | rfl | rfl | rfl <;>
    exact ⟨_, rfl⟩

theorem nbar_only_partial_alias_witness :
    "NDVI" ∈ registeredIndices ∧
    ∃ d, (calculate_indices (nbarDS 1 2 3 4 5 6) (some "NDVI")
        (some "ga_landsat_3") none).1 = Except.ok d :=
  ⟨by decide,
    (nbar_only_partial_alias 1 2 3 4 5 6 "NDVI" (by decide)).2.2⟩
